import Mathlib

/-!
Verification development for the punctuator2 model core
(`src/punctuator/models.py`): the GRU recurrent cell (`GRULayer.step`),
the attention normalization in `output_recurrence`, the flattened
parameter list of `GRU.__init__`, the initializers, and the two
serialization formats (pickle single blob: `GRU.save` / `load`;
zip container: `GRU.save_zip` / `GRU.load_zip`).

Numeric tensors are embedded over the reals; one batch row of a batched
tensor is modelled (the source operations act elementwise along the
batch axis).  The serialization layer is embedded executably: float
payloads are modelled as rationals (machine floats are rationals),
Python objects that may appear as values in the persisted state are an
inductive `PyObj`, and Python truthiness is `PyObj.truthy`.
-/

open scoped BigOperators

noncomputable section NumericCore

/-- The logistic sigmoid, `T.nnet.basic.sigmoid`. -/
def sigmoid (x : ℝ) : ℝ := 1 / (1 + Real.exp (-x))

/-- `_slice(tensor, size, i)` on a 1-D tensor: the columns
`i*size` to `(i+1)*size` (models.py line 35, `tensor[i*size:(i+1)*size]`). -/
def sliceCols {n : ℕ} (v : Fin n → ℝ) (size i : ℕ) (h : (i + 1) * size ≤ n) :
    Fin size → ℝ :=
  fun j => v ⟨i * size + j.1, by
    have hj := j.isLt
    have he : (i + 1) * size = i * size + size := by ring
    omega⟩

/-- The parameters of one `GRULayer` (models.py lines 122-141): gate
parameters `W_x`, `W_h`, `b` of width `n_out * 2`, and candidate
(input) parameters `W_x_h`, `W_h_h`, `b_h` of width `n_out`. -/
structure GRULayer where
  n_in : ℕ
  n_out : ℕ
  W_x : Matrix (Fin n_in) (Fin (n_out * 2)) ℝ
  W_h : Matrix (Fin n_out) (Fin (n_out * 2)) ℝ
  b : Fin (n_out * 2) → ℝ
  W_x_h : Matrix (Fin n_in) (Fin n_out) ℝ
  W_h_h : Matrix (Fin n_out) (Fin n_out) ℝ
  b_h : Fin n_out → ℝ

/-- Line 145: `rz = sigmoid(T.dot(x_t, W_x) + T.dot(h_tm1, W_h) + b)`. -/
def GRULayer.rz (L : GRULayer) (x_t : Fin L.n_in → ℝ) (h_tm1 : Fin L.n_out → ℝ) :
    Fin (L.n_out * 2) → ℝ :=
  fun j => sigmoid (Matrix.vecMul x_t L.W_x j + Matrix.vecMul h_tm1 L.W_h j + L.b j)

/-- Line 146: `r = _slice(rz, n_out, 0)`. -/
def GRULayer.r (L : GRULayer) (x_t : Fin L.n_in → ℝ) (h_tm1 : Fin L.n_out → ℝ) :
    Fin L.n_out → ℝ :=
  sliceCols (L.rz x_t h_tm1) L.n_out 0 (by omega)

/-- Line 147: `z = _slice(rz, n_out, 1)`. -/
def GRULayer.z (L : GRULayer) (x_t : Fin L.n_in → ℝ) (h_tm1 : Fin L.n_out → ℝ) :
    Fin L.n_out → ℝ :=
  sliceCols (L.rz x_t h_tm1) L.n_out 1 (by omega)

/-- Line 149: `h = tanh(T.dot(x_t, W_x_h) + T.dot(h_tm1 * r, W_h_h) + b_h)`. -/
def GRULayer.h (L : GRULayer) (x_t : Fin L.n_in → ℝ) (h_tm1 : Fin L.n_out → ℝ) :
    Fin L.n_out → ℝ :=
  fun j => Real.tanh (Matrix.vecMul x_t L.W_x_h j +
    Matrix.vecMul (fun i => h_tm1 i * L.r x_t h_tm1 i) L.W_h_h j + L.b_h j)

/-- `GRULayer.step` (models.py lines 143-153): reads the six parameters
and returns `h_t = z * h_tm1 + (1 - z) * h`; it mutates nothing (the
embedding is a pure function of the layer and the two inputs). -/
def GRULayer.step (L : GRULayer) (x_t : Fin L.n_in → ℝ) (h_tm1 : Fin L.n_out → ℝ) :
    Fin L.n_out → ℝ :=
  fun j => L.z x_t h_tm1 j * h_tm1 j + (1 - L.z x_t h_tm1 j) * L.h x_t h_tm1 j

/-- The GRU step exactly as the specification words it (spec section 4.2):
a combined gate pre-activation passed through the logistic sigmoid, the
reset gate is the first half of width `n_out`, the update gate the second
half, a tanh candidate hidden state, and the update-gate blend. -/
def GRUStepSpec (L : GRULayer) (x_t : Fin L.n_in → ℝ) (h_tm1 : Fin L.n_out → ℝ) :
    Fin L.n_out → ℝ :=
  let pre : Fin (L.n_out * 2) → ℝ :=
    fun j => sigmoid (Matrix.vecMul x_t L.W_x j + Matrix.vecMul h_tm1 L.W_h j + L.b j)
  let reset_gate : Fin L.n_out → ℝ := fun j => pre ⟨j.1, by omega⟩
  let update_gate : Fin L.n_out → ℝ := fun j => pre ⟨L.n_out + j.1, by omega⟩
  let candidate_hidden : Fin L.n_out → ℝ :=
    fun j => Real.tanh (Matrix.vecMul x_t L.W_x_h j +
      Matrix.vecMul (fun i => h_tm1 i * reset_gate i) L.W_h_h j + L.b_h j)
  fun j => update_gate j * h_tm1 j + (1 - update_gate j) * candidate_hidden j

/-- The per-step raw attention scores of `output_recurrence`
(models.py lines 219-221): `exp(dot(tanh(projected_context + dot(h_tm1, Wa_h)), Wa_y))`,
one scalar per context time step (the size-1 axis from `Wa_y` is dropped
by the `reshape`, modelled by evaluating the product at column 0). -/
def attnRaw (T n_hidden : ℕ) (projected_context : Fin T → Fin (n_hidden * 2) → ℝ)
    (h_tm1 : Fin n_hidden → ℝ) (Wa_h : Matrix (Fin n_hidden) (Fin (n_hidden * 2)) ℝ)
    (Wa_y : Matrix (Fin (n_hidden * 2)) (Fin 1) ℝ) : Fin T → ℝ :=
  fun t => Real.exp (Matrix.vecMul
    (fun j => Real.tanh (projected_context t j + Matrix.vecMul h_tm1 Wa_h j)) Wa_y 0)

/-- The attention weights of `output_recurrence` (models.py line 222):
the raw exponentiated scores divided by their sum over the context
time axis (`alphas / alphas.sum(axis=0, keepdims=True)`), for one batch
column. -/
def attentionAlphas (T n_hidden : ℕ) (projected_context : Fin T → Fin (n_hidden * 2) → ℝ)
    (h_tm1 : Fin n_hidden → ℝ) (Wa_h : Matrix (Fin n_hidden) (Fin (n_hidden * 2)) ℝ)
    (Wa_y : Matrix (Fin (n_hidden * 2)) (Fin 1) ℝ) : Fin T → ℝ :=
  fun t => attnRaw T n_hidden projected_context h_tm1 Wa_h Wa_y t /
    ∑ s, attnRaw T n_hidden projected_context h_tm1 Wa_h Wa_y s

end NumericCore

/-! ## Serialization data model

Parameter payloads are opaque numeric arrays; an array value is a list
of rows of rationals (machine floats are rationals). -/

/-- A persisted numeric array value (`p.get_value()` of a parameter). -/
abbrev Tensor := List (List ℚ)

/-- A vocabulary: mapping from token string to integer index. -/
abbrev Vocab := List (String × ℕ)

/-- The process-wide numpy generator state, abstracted as a restored
payload; `none` stands for an arbitrary state that no restore has
touched yet. -/
abbrev RngState := Option (List ℕ)

/-- The Python values that can appear in the persisted model state. -/
inductive PyObj where
  | pynone : PyObj
  | pystr : String → PyObj
  | pynat : ℕ → PyObj
  | pyrat : ℚ → PyObj
  | pyratList : List ℚ → PyObj
  | pyvocab : Vocab → PyObj
  | pytensors : List Tensor → PyObj
  | pyrand : List ℕ → PyObj
deriving DecidableEq

/-- Python truthiness of a `PyObj` (`if v:` / `not v`): `None`, empty
strings, zero numbers and empty containers are falsy. -/
def PyObj.truthy : PyObj → Bool
  | .pynone => false
  | .pystr s => s != ""
  | .pynat n => n != 0
  | .pyrat q => q != 0
  | .pyratList l => !l.isEmpty
  | .pyvocab v => !v.isEmpty
  | .pytensors l => !l.isEmpty
  | .pyrand l => !l.isEmpty

/-- The six parameters owned by one `GRULayer`, in the order of
`self.params` (models.py line 141). -/
inductive CellParam where
  | W_x | W_h | b | W_x_h | W_h_h | b_h
deriving DecidableEq

/-- Which of the three cells owns a cell parameter: the decoder
(`self.GRU`), the forward encoder (`self.GRU_f`) or the backward
encoder (`self.GRU_b`). -/
inductive CellId where
  | dec | fwd | bwd
deriving DecidableEq

/-- The identity of one parameter owned by a `GRU` model.  `b_y` is the
attribute `self.by`, `bf` the attribute `self.bf` (its aesara display
name is also the string `'by'`, but it is a distinct parameter object). -/
inductive PName where
  | We | Wy | b_y | Wa_h | Wa_c | ba | Wa_y | Wf_h | Wf_c | Wf_f | bf
  | cell : CellId → CellParam → PName
deriving DecidableEq

/-- `GRULayer.__init__` line 141:
`self.params = [W_x, W_h, b, W_x_h, W_h_h, b_h]`. -/
def GRULayer.paramNames (c : CellId) : List PName :=
  [.cell c .W_x, .cell c .W_h, .cell c .b, .cell c .W_x_h, .cell c .W_h_h, .cell c .b_h]

/-- `GRU.__init__` lines 206-208: the flattened parameter list
`[We, Wy, by, Wa_h, Wa_c, ba, Wa_y, Wf_h, Wf_c, Wf_f, bf]`
followed by `self.GRU.params + self.GRU_f.params + self.GRU_b.params`. -/
def GRU.paramOrder : List PName :=
  [.We, .Wy, .b_y, .Wa_h, .Wa_c, .ba, .Wa_y, .Wf_h, .Wf_c, .Wf_f, .bf] ++
    GRULayer.paramNames .dec ++ GRULayer.paramNames .fwd ++ GRULayer.paramNames .bwd

/-- The durable state of a constructed `GRU` model: the hyperparameters
fixed at construction and the current values of the flattened parameter
list.  The symbolic batch input and batch size shape only the computation
graph, not the durable state, and are omitted. -/
structure GRUModel where
  n_hidden : ℕ
  x_vocabulary : Vocab
  y_vocabulary : Vocab
  params : List Tensor
deriving DecidableEq

/-- The body of `GRU.__init__` after the stage-1 assertion: every owned
parameter is created by an initializer (abstracted by `init`, which
covers both the random and the pretrained-embedding branch for `We`)
and listed in `GRU.paramOrder`. -/
def GRU.new (init : PName → Tensor) (n_hidden : ℕ)
    (x_vocabulary y_vocabulary : Vocab) : GRUModel :=
  ⟨n_hidden, x_vocabulary, y_vocabulary, GRU.paramOrder.map init⟩

/-- `GRU.__init__` (models.py lines 158-208): line 160 asserts
`not stage1_model_file_name and not p` and the construction otherwise
succeeds. -/
def GRU.construct (init : PName → Tensor) (n_hidden : ℕ)
    (x_vocabulary y_vocabulary : Vocab) (stage1_model_file_name p : PyObj) :
    Except String GRUModel :=
  if stage1_model_file_name.truthy || p.truthy then
    .error "AssertionError: Stage 1 model cannot have stage 1 model"
  else
    .ok (GRU.new init n_hidden x_vocabulary y_vocabulary)

/-- The optional training-loop context accepted by `GRU.save` and
`GRU.save_zip` (models.py lines 266 and 284), in signature order. -/
structure SaveArgs where
  gsums : Option (List Tensor)
  learning_rate : Option ℚ
  validation_ppl_history : Option (List ℚ)
  best_validation_ppl : Option ℚ
  epoch : Option ℕ
  random_state : Option (List ℕ)

/-- The persisted `"gsums"` value:
`[s.get_value(borrow=True) for s in gsums] if gsums else None`. -/
def gsumsObj : Option (List Tensor) → PyObj
  | some (t :: l) => .pytensors (t :: l)
  | _ => .pynone

/-- An optional float persisted as-is (`learning_rate`, ...). -/
def optRatObj : Option ℚ → PyObj
  | none => .pynone
  | some q => .pyrat q

/-- An optional float list persisted as-is (`validation_ppl_history`). -/
def optRatListObj : Option (List ℚ) → PyObj
  | none => .pynone
  | some l => .pyratList l

/-- An optional integer persisted as-is (`epoch`). -/
def optNatObj : Option ℕ → PyObj
  | none => .pynone
  | some n => .pynat n

/-- An optional generator state persisted as-is (`random_state`). -/
def optRandObj : Option (List ℕ) → PyObj
  | none => .pynone
  | some s => .pyrand s

/-- `GRU.save` (models.py lines 266-282): the persisted `state` record,
written as the dict literal of lines 267-279 in source order.  The
`best_validation_ppl` argument is accepted but never read.  A `GRU`
never sets `self.stage1_model_file_name`, so the `hasattr` probe always
persists `None`.  (`GRU.save_zip` builds the identical record.) -/
def GRU.save (m : GRUModel) (a : SaveArgs) : List (String × PyObj) :=
  [("type", .pystr "GRU"),
   ("n_hidden", .pynat m.n_hidden),
   ("x_vocabulary", .pyvocab m.x_vocabulary),
   ("y_vocabulary", .pyvocab m.y_vocabulary),
   ("stage1_model_file_name", .pynone),
   ("params", .pytensors m.params),
   ("gsums", gsumsObj a.gsums),
   ("learning_rate", optRatObj a.learning_rate),
   ("validation_ppl_history", optRatListObj a.validation_ppl_history),
   ("epoch", optNatObj a.epoch),
   ("random_state", optRandObj a.random_state)]

/-- `state["key"]` on the unpickled record: a missing key is a
`KeyError`. -/
def dictGet (st : List (String × PyObj)) (k : String) : Except String PyObj :=
  match st.find? (fun e => e.1 == k) with
  | some e => .ok e.2
  | none => .error ("KeyError: " ++ k)

/-- `state.get("key", default)` on the unpickled record. -/
def dictGetD (st : List (String × PyObj)) (k : String) (d : PyObj) : PyObj :=
  match st.find? (fun e => e.1 == k) with
  | some e => e.2
  | none => d

/-- The parameter-rebinding loop of `load` / `load_zip`
(`for net_param, state_param in zip(net.params, state["params"]):
net_param.set_value(state_param)`): positions covered by both lists take
the persisted value, trailing live parameters keep their value, extra
persisted values are dropped. -/
def rebindParams : List Tensor → List Tensor → List Tensor
  | live, [] => live
  | [], _ :: _ => []
  | _ :: live, p :: per => p :: rebindParams live per

/-- The state payload carried by a truthy persisted `random_state`,
used by the guarded restore of `load_zip`
(`if random_state: rng.set_state(random_state)`). -/
def toRng : PyObj → RngState
  | .pyrand s => some s
  | _ => none

/-- `rng.set_state(value)` (numpy): restores a persisted state record;
any other argument, in particular `None`, raises a `TypeError`. -/
def npSetState : PyObj → Except String RngState
  | .pyrand s => .ok (some s)
  | _ => .error "TypeError: state must be a dict or a tuple"

/-- `[aesara.shared(g) for g in state["gsums"]] if state["gsums"] else None`
(models.py line 85). -/
def truthyGsums : PyObj → Option (List Tensor)
  | .pytensors (t :: l) => some (t :: l)
  | _ => none

/-- `load` (models.py lines 59-87) on an unpickled state record: look
the model class up by the `"type"` tag, run the unconditional
`rng.set_state(state["random_state"])` of line 69 (which raises a
`TypeError` when the persisted state is `None`), construct the model
with the persisted hyperparameters (with `stage1_model_file_name` from
the record and the caller's `p`), rebind the persisted parameters
positionally, rewrap truthy `gsums` and return the net together with
the training context tuple. -/
def load (st : List (String × PyObj)) (p : PyObj) (init2 : PName → Tensor) :
    Except String (GRUModel × (Option (List Tensor) × PyObj × PyObj × PyObj × RngState)) :=
  match dictGet st "type" with
  | .error e => .error e
  | .ok tyObj =>
    if tyObj = .pystr "GRU" then
      match dictGet st "random_state" with
      | .error e => .error e
      | .ok rsObj =>
        match npSetState rsObj with
        | .error e => .error e
        | .ok rng =>
          match dictGet st "n_hidden" with
          | .error e => .error e
          | .ok (.pynat nh) =>
            match dictGet st "x_vocabulary" with
            | .error e => .error e
            | .ok (.pyvocab xv) =>
              match dictGet st "y_vocabulary" with
              | .error e => .error e
              | .ok (.pyvocab yv) =>
                match GRU.construct init2 nh xv yv
                    (dictGetD st "stage1_model_file_name" .pynone) p with
                | .error e => .error e
                | .ok net =>
                  match dictGet st "params" with
                  | .error e => .error e
                  | .ok (.pytensors ps) =>
                    match dictGet st "gsums", dictGet st "learning_rate",
                        dictGet st "validation_ppl_history", dictGet st "epoch" with
                    | .ok gs, .ok lr, .ok hist, .ok ep =>
                      .ok (⟨net.n_hidden, net.x_vocabulary, net.y_vocabulary,
                            rebindParams net.params ps⟩,
                           (truthyGsums gs, lr, hist, ep, rng))
                    | _, _, _, _ => .error "KeyError"
                  | .ok _ => .error "TypeError"
              | .ok _ => .error "TypeError"
            | .ok _ => .error "TypeError"
          | .ok _ => .error "TypeError"
    else .error ("KeyError: " ++ "unknown model type")

/-! ## Container (zip) format -/

/-- One member of the model zip: either a UTF-8 JSON text entry or a
sequential array-list (`.npyl`) entry. -/
inductive ZEntry where
  | json : PyObj → ZEntry
  | npyl : List Tensor → ZEntry
deriving DecidableEq

/-- `isinstance(v, list) and v and isinstance(v[0], np.ndarray)`
(models.py line 301): the values dumped as an `.npyl` entry. -/
def isNpylObj : PyObj → Bool
  | .pytensors (_ :: _) => true
  | _ => false

/-- One iteration of the `save_zip` loop (models.py lines 300-308): a
non-empty list of arrays becomes the member `"{k}.npyl"` holding the
arrays in order, anything else the JSON member `"{k}.json"`. -/
def entryOf (k : String) (v : PyObj) : String × ZEntry :=
  match v with
  | .pytensors (t :: l) => (k ++ ".npyl", .npyl (t :: l))
  | v => (k ++ ".json", .json v)

/-- `GRU.save_zip` (models.py lines 284-308): builds the same state
record as `GRU.save` and writes one archive member per field. -/
def GRU.save_zip (m : GRUModel) (a : SaveArgs) : List (String × ZEntry) :=
  (GRU.save m a).map (fun kv => entryOf kv.1 kv.2)

/-- `zipfile.Path(model_path, name).exists()` plus opening the member. -/
def lookupEntry (ar : List (String × ZEntry)) (name : String) : Option ZEntry :=
  (ar.find? (fun e => e.1 == name)).map (fun e => e.2)

/-- The `.npyl` read-back loop of `_load_var_from_zip` (models.py lines
325-327): `while file.peek(): value.append(np.load(file))` — decode
arrays until the stream is exhausted, in stream order. -/
def readNpyl : List Tensor → List Tensor
  | [] => []
  | t :: rest => t :: readNpyl rest

/-- `GRU._load_var_from_zip` (models.py lines 311-330): probe
`"{key}.json"` first, then `"{key}.npyl"`; raise
`ValueError(f"{key} not found in model zip")` when neither exists. -/
def loadVarFromZip (ar : List (String × ZEntry)) (key : String) : Except String PyObj :=
  match lookupEntry ar (key ++ ".json") with
  | some (.json v) => .ok v
  | _ =>
    match lookupEntry ar (key ++ ".npyl") with
    | some (.npyl l) => .ok (.pytensors (readNpyl l))
    | _ => .error (key ++ " not found in model zip")

/-- `GRU.load_zip` (models.py lines 332-358): assert the persisted type
tag equals the class name, restore the generator state only when the
persisted `random_state` is truthy, construct the model from the
persisted hyperparameters (no stage-1 argument is passed), rebind the
persisted parameters positionally, and return only the net (paired here
with the resulting generator state to make that effect observable). -/
def GRU.load_zip (ar : List (String × ZEntry)) (p : PyObj) (rng0 : RngState)
    (init2 : PName → Tensor) : Except String (GRUModel × RngState) :=
  match loadVarFromZip ar "type" with
  | .error e => .error e
  | .ok tyObj =>
    if tyObj = .pystr "GRU" then
      match loadVarFromZip ar "random_state" with
      | .error e => .error e
      | .ok rsObj =>
        let rng1 := if rsObj.truthy then toRng rsObj else rng0
        match loadVarFromZip ar "n_hidden" with
        | .error e => .error e
        | .ok (.pynat nh) =>
          match loadVarFromZip ar "x_vocabulary" with
          | .error e => .error e
          | .ok (.pyvocab xv) =>
            match loadVarFromZip ar "y_vocabulary" with
            | .error e => .error e
            | .ok (.pyvocab yv) =>
              match GRU.construct init2 nh xv yv .pynone p with
              | .error e => .error e
              | .ok net =>
                match loadVarFromZip ar "params" with
                | .error e => .error e
                | .ok (.pytensors ps) =>
                  .ok (⟨net.n_hidden, net.x_vocabulary, net.y_vocabulary,
                        rebindParams net.params ps⟩, rng1)
                | .ok _ => .error "TypeError"
            | .ok _ => .error "TypeError"
          | .ok _ => .error "TypeError"
        | .ok _ => .error "TypeError"
    else .error "AssertionError"

/-- The effect of `load_zip` on the generator state:
`if random_state: rng.set_state(random_state)` — only a non-null,
non-empty persisted state replaces the current one. -/
def zipRngUpdate (rs : Option (List ℕ)) (rng0 : RngState) : RngState :=
  match rs with
  | some (s0 :: s) => some (s0 :: s)
  | _ => rng0

/-- The persisted state record with its `"params"` value replaced, used
to model a persisted record written for a model with a different
(for example shorter) parameter list. -/
def setDictParams (st : List (String × PyObj)) (l : List Tensor) :
    List (String × PyObj) :=
  st.map (fun kv => if kv.1 == "params" then (kv.1, PyObj.pytensors l) else kv)

/-! ## Initializers (`_get_shape`, `weights_identity`) -/

/-- A numpy array as the initializers produce it: a shape and an entry
function (entries outside the shape are irrelevant; a 1-D array reads
its entries at row index 0). -/
structure NDArr where
  shape : List ℕ
  entry : ℕ → ℕ → ℚ

/-- `_get_shape(i, o, keepdims)` (models.py lines 24-27): collapse to the
1-D shape `(max(i, o),)` when a side is 1 and `keepdims` is not set. -/
def getShapePy (i o : ℕ) (keepdims : Bool) : List ℕ :=
  if (i = 1 ∨ o = 1) ∧ keepdims = false then [max i o] else [i, o]

/-- `np.eye(*shape)`: with a single argument `n` numpy produces the
square `n × n` identity (the missing second argument defaults to the
first); with two arguments the `n × m` rectangular identity. -/
def npEye : List ℕ → NDArr
  | [n] => ⟨[n, n], fun a b => if a = b then 1 else 0⟩
  | [n, m] => ⟨[n, m], fun a b => if a = b then 1 else 0⟩
  | s => ⟨s, fun _ _ => 0⟩

/-- `weights_identity` (models.py lines 44-47):
`np.eye(*_get_shape(i, o, keepdims)) * const` (the aesara `name`
argument only labels the shared variable and is dropped). -/
def weights_identity (i o : ℕ) (const : ℚ) (keepdims : Bool) : NDArr :=
  ⟨(npEye (getShapePy i o keepdims)).shape,
   fun a b => (npEye (getShapePy i o keepdims)).entry a b * const⟩

/-- A concrete initializer supply used in concrete instantiations. -/
def initZero : PName → Tensor := fun _ => []

/-- A one-member archive whose type tag names a different class. -/
def wArchive : List (String × ZEntry) := [("type.json", .json (.pystr "GRULayer"))]

/-- The `while file.peek()` loop returns the arrays in stream order. -/
theorem readNpyl_id (l : List Tensor) : readNpyl l = l := by
  induction l with
  | nil => rfl
  | cons t rest ih => simp [readNpyl, ih]

/-- Zip-truncate rebinding: a persisted list no longer than the live one
replaces the covered prefix and leaves the tail of the live list. -/
theorem rebind_truncate_eq (live persisted : List Tensor)
    (h : persisted.length ≤ live.length) :
    rebindParams live persisted = persisted ++ live.drop persisted.length := by
  induction persisted generalizing live with
  | nil => cases live <;> simp [rebindParams]
  | cons p per ih =>
    cases live with
    | nil => simp at h
    | cons l live =>
      simp only [rebindParams, List.length_cons, List.drop_succ_cons, List.cons_append]
      exact congrArg (List.cons p) (ih live (by simpa using h))

/-- Evaluation of `load_zip` on an archive produced by `save_zip` of a
freshly constructed model: the net comes back with the persisted
parameter values and the generator state is updated only by a truthy
persisted `random_state`. -/
theorem load_zip_save_zip_eval (init init2 : PName → Tensor) (nh : ℕ) (xv yv : Vocab)
    (g : Option (List Tensor)) (lr : Option ℚ) (hist : Option (List ℚ)) (bv : Option ℚ)
    (ep : Option ℕ) (rs : Option (List ℕ)) (rng0 : RngState) :
    GRU.load_zip (GRU.save_zip (GRU.new init nh xv yv) ⟨g, lr, hist, bv, ep, rs⟩)
        .pynone rng0 init2 =
      .ok (GRU.new init nh xv yv, zipRngUpdate rs rng0) := by
  rcases g with _ | (_ | ⟨t, g⟩) <;> rcases lr with _ | lr <;>
    rcases hist with _ | hist <;> rcases ep with _ | ep <;>
    rcases rs with _ | (_ | ⟨s0, s⟩) <;> rfl

/-- C1: `GRULayer.step` computes the combined gate pre-activation
`x_t·W_x + h_tm1·W_h + b` through the logistic sigmoid, splits it into the
reset gate (first half of width `n_out`) and the update gate (second
half), forms the candidate hidden `tanh(x_t·W_x_h + (h_tm1 ⊙ r)·W_h_h + b_h)`,
and returns `z ⊙ h_tm1 + (1 − z) ⊙ candidate`; no parameter is mutated
(the step is a pure function of the layer). -/
theorem gruStep_matches_specification (L : GRULayer) (x_t : Fin L.n_in → ℝ)
    (h_tm1 : Fin L.n_out → ℝ) :
    L.step x_t h_tm1 = GRUStepSpec L x_t h_tm1 := by
  funext j
  simp only [GRULayer.step, GRULayer.z, GRULayer.h, GRULayer.r, GRULayer.rz,
    GRUStepSpec, sliceCols, zero_mul, one_mul, Nat.zero_add]

/-- C2 counterexample: `save` called with its default arguments persists
`random_state = None`; the single-blob `load` of that record runs the
unconditional `rng.set_state(None)` of line 69, which raises a
`TypeError`, so the round-trip yields no model at all at this concrete
input — refuting the claim that save followed by load yields a Model
with value-identical parameters for every constructed Model. -/
theorem save_load_roundtrip_counterexample :
    load (GRU.save (GRU.new initZero 1 [] []) ⟨none, none, none, none, none, none⟩)
        .pynone initZero =
      .error "TypeError: state must be a dict or a tuple" := rfl

/-- C2 (amended): `save_zip` followed by `load_zip` reconstructs a model
equal to the original (hyperparameters, vocabularies and the whole
flattened parameter list, element for element) for every constructed
model and every save context — so every computation of the reconstructed
model on an identical input coincides with the original's; `save`
followed by `load` does likewise whenever `save` was given a non-null
`random_state`, while a null persisted `random_state` makes the
single-blob `load` fail in the unconditional generator-state restore
and return no model. -/
theorem save_load_roundtrip_amended (init init2 : PName → Tensor) (nh : ℕ) (xv yv : Vocab)
    (a : SaveArgs) (rstate : List ℕ) (rng0 : RngState) :
    (a.random_state = some rstate →
      (load (GRU.save (GRU.new init nh xv yv) a) .pynone init2).map Prod.fst =
        .ok (GRU.new init nh xv yv)) ∧
    (GRU.load_zip (GRU.save_zip (GRU.new init nh xv yv) a) .pynone rng0 init2).map
        Prod.fst = .ok (GRU.new init nh xv yv) := by
  rcases a with ⟨g, lr, hist, bv, ep, rs⟩
  constructor
  · intro h
    simp only at h
    subst h
    rfl
  · rw [load_zip_save_zip_eval]
    rfl

/-- C2 witness: the blob round-trip at a concrete model and a concrete
non-null persisted generator state. -/
theorem save_load_roundtrip_amended_witness :
    (load (GRU.save (GRU.new initZero 1 [] []) ⟨none, none, none, none, none, some [0]⟩)
        .pynone initZero).map Prod.fst = .ok (GRU.new initZero 1 [] []) :=
  (save_load_roundtrip_amended initZero initZero 1 [] []
    ⟨none, none, none, none, none, some [0]⟩ [0] none).1 rfl

/-- C3: the flattened parameter list contains each owned parameter
exactly once (`Nodup`), in exactly the order
`[We, Wy, by, Wa_h, Wa_c, ba, Wa_y, Wf_h, Wf_c, Wf_f, bf]` followed by
the decoder cell's, the forward cell's and the backward cell's
parameters, each cell contributing `[W_x, W_h, b, W_x_h, W_h_h, b_h]`;
and every construction (including the reconstruction performed at load)
produces its parameters in this fixed order. -/
theorem flattened_param_order (init : PName → Tensor) (nh : ℕ) (xv yv : Vocab) :
    GRU.paramOrder.Nodup ∧
    GRU.paramOrder =
      ([.We, .Wy, .b_y, .Wa_h, .Wa_c, .ba, .Wa_y, .Wf_h, .Wf_c, .Wf_f, .bf,
        .cell .dec .W_x, .cell .dec .W_h, .cell .dec .b, .cell .dec .W_x_h,
        .cell .dec .W_h_h, .cell .dec .b_h,
        .cell .fwd .W_x, .cell .fwd .W_h, .cell .fwd .b, .cell .fwd .W_x_h,
        .cell .fwd .W_h_h, .cell .fwd .b_h,
        .cell .bwd .W_x, .cell .bwd .W_h, .cell .bwd .b, .cell .bwd .W_x_h,
        .cell .bwd .W_h_h, .cell .bwd .b_h] : List PName) ∧
    (GRU.new init nh xv yv).params = GRU.paramOrder.map init :=
  ⟨by decide, by decide, rfl⟩

/-- C4: at every decode step the attention weights produced by
`output_recurrence` (exponentiated scores divided by their sum over the
context time axis) are all non-negative and sum to 1 over the context
positions — exactly, in real arithmetic — for every non-empty context. -/
theorem attention_weights_form_distribution (T n_hidden : ℕ)
    (projected_context : Fin T → Fin (n_hidden * 2) → ℝ) (h_tm1 : Fin n_hidden → ℝ)
    (Wa_h : Matrix (Fin n_hidden) (Fin (n_hidden * 2)) ℝ)
    (Wa_y : Matrix (Fin (n_hidden * 2)) (Fin 1) ℝ) (hT : 0 < T) :
    (∀ t, 0 ≤ attentionAlphas T n_hidden projected_context h_tm1 Wa_h Wa_y t) ∧
      ∑ t, attentionAlphas T n_hidden projected_context h_tm1 Wa_h Wa_y t = 1 := by
  haveI : Nonempty (Fin T) := Fin.pos_iff_nonempty.mp hT
  have hpos : 0 < ∑ s, attnRaw T n_hidden projected_context h_tm1 Wa_h Wa_y s :=
    Finset.sum_pos (fun s _ => Real.exp_pos _) Finset.univ_nonempty
  constructor
  · intro t
    exact div_nonneg (Real.exp_pos _).le hpos.le
  · unfold attentionAlphas
    rw [← Finset.sum_div, div_self hpos.ne']

/-- C4 witness: the attention distribution law at a concrete context of
length 1 with hidden width 1 and zero weights. -/
theorem attention_weights_form_distribution_witness :
    (∀ t, 0 ≤ attentionAlphas 1 1 (fun _ _ => 0) (fun _ => 0) 0 0 t) ∧
      ∑ t, attentionAlphas 1 1 (fun _ _ => 0) (fun _ => 0) 0 0 t = 1 :=
  attention_weights_form_distribution 1 1 (fun _ _ => 0) (fun _ => 0) 0 0 (by decide)

/-- C5: parameter rebinding at load is positional with zip-truncate
semantics.  First conjunct: the rebinding loop on a persisted list no
longer than the live list overwrites the covered prefix and silently
leaves the trailing live parameters at their values.  Second conjunct:
the single-blob `load` of a record whose persisted `"params"` list is
shorter raises no error for the length mismatch and returns exactly the
persisted prefix followed by the freshly initialized tail (stated for a
record with a non-null persisted `random_state`, since line 69's
`rng.set_state` runs before the rebinding and would reject `None`
independently of the parameter list).  Third conjunct: the container
`load_zip` rebinds an arbitrary persisted list through the same
positional loop, also without error. -/
theorem positional_rebind_truncates :
    (∀ live persisted : List Tensor, persisted.length ≤ live.length →
      rebindParams live persisted = persisted ++ live.drop persisted.length) ∧
    (∀ (init init2 : PName → Tensor) (nh : ℕ) (xv yv : Vocab) (a : SaveArgs)
        (rstate : List ℕ) (persisted : List Tensor), persisted.length ≤ 29 →
      (load (setDictParams (GRU.save (GRU.new init nh xv yv)
            ⟨a.gsums, a.learning_rate, a.validation_ppl_history, a.best_validation_ppl,
             a.epoch, some rstate⟩) persisted)
          .pynone init2).map (fun r => r.1.params) =
        .ok (persisted ++ (GRU.paramOrder.map init2).drop persisted.length)) ∧
    (∀ (init init2 : PName → Tensor) (nh : ℕ) (xv yv : Vocab) (a : SaveArgs)
        (persisted : List Tensor) (rng0 : RngState),
      (GRU.load_zip ((setDictParams (GRU.save (GRU.new init nh xv yv) a) persisted).map
            (fun kv => entryOf kv.1 kv.2)) .pynone rng0 init2).map
          (fun r => r.1.params) =
        .ok (rebindParams (GRU.paramOrder.map init2) persisted)) := by
  refine ⟨rebind_truncate_eq, ?_, ?_⟩
  · intro init init2 nh xv yv a rstate persisted hlen
    have e : (load (setDictParams (GRU.save (GRU.new init nh xv yv)
          ⟨a.gsums, a.learning_rate, a.validation_ppl_history, a.best_validation_ppl,
           a.epoch, some rstate⟩) persisted)
        .pynone init2).map (fun r => r.1.params) =
        .ok (rebindParams (GRU.paramOrder.map init2) persisted) := rfl
    rw [e, rebind_truncate_eq]
    rw [List.length_map]
    exact hlen.trans (by decide)
  · intro init init2 nh xv yv a persisted rng0
    rcases a with ⟨g, lr, hist, bv, ep, rs⟩
    rcases persisted with _ | ⟨p0, ps⟩ <;>
      rcases g with _ | (_ | ⟨t, g⟩) <;> rcases lr with _ | lr <;>
      rcases hist with _ | hist <;> rcases ep with _ | ep <;> rcases rs with _ | rs <;>
      first
        | rfl
        | ((conv_rhs => rw [← readNpyl_id (p0 :: ps)]); rfl)

/-- C5 witness: the truncating rebind at a concrete pair of lists. -/
theorem positional_rebind_truncates_witness :
    rebindParams [[[(1 : ℚ)]], [[2]]] [[[3]]] =
      [[[3]]] ++ [[[(1 : ℚ)]], [[2]]].drop 1 :=
  positional_rebind_truncates.1 [[[(1 : ℚ)]], [[2]]] [[[3]]] (by decide)

/-- C6: container loading probes each key as a JSON entry first, then as
an array-list entry; the array-list read-back loop returns the arrays in
order; a key present in neither form fails with an error naming the
field; and `load_zip` fails when the persisted type tag does not match
the loading class name. -/
theorem container_probe_and_type_check :
    (∀ (ar : List (String × ZEntry)) (key : String) (v : PyObj),
      lookupEntry ar (key ++ ".json") = some (.json v) →
      loadVarFromZip ar key = .ok v) ∧
    (∀ (ar : List (String × ZEntry)) (key : String) (l : List Tensor),
      lookupEntry ar (key ++ ".json") = none →
      lookupEntry ar (key ++ ".npyl") = some (.npyl l) →
      loadVarFromZip ar key = .ok (.pytensors l) ∧ readNpyl l = l) ∧
    (∀ (ar : List (String × ZEntry)) (key : String),
      lookupEntry ar (key ++ ".json") = none →
      lookupEntry ar (key ++ ".npyl") = none →
      loadVarFromZip ar key = .error (key ++ " not found in model zip")) ∧
    (∀ (ar : List (String × ZEntry)) (p : PyObj) (rng0 : RngState)
        (init2 : PName → Tensor) (s : String),
      loadVarFromZip ar "type" = .ok (.pystr s) → s ≠ "GRU" →
      GRU.load_zip ar p rng0 init2 = .error "AssertionError") := by
  refine ⟨?_, ?_, ?_, ?_⟩
  · intro ar key v h
    simp [loadVarFromZip, h]
  · intro ar key l h1 h2
    refine ⟨?_, readNpyl_id l⟩
    simp [loadVarFromZip, h1, h2, readNpyl_id]
  · intro ar key h1 h2
    simp [loadVarFromZip, h1, h2]
  · intro ar p rng0 init2 s h1 h2
    simp only [GRU.load_zip, h1]
    rw [if_neg (by simpa using h2)]

/-- C6 witness: a missing field fails naming the field, and a mismatched
type tag makes `load_zip` fail, at concrete archives. -/
theorem container_probe_and_type_check_witness :
    loadVarFromZip [] "epoch" = .error ("epoch" ++ " not found in model zip") ∧
    GRU.load_zip wArchive .pynone none initZero = .error "AssertionError" :=
  ⟨container_probe_and_type_check.2.2.1 [] "epoch" rfl rfl,
   container_probe_and_type_check.2.2.2 wArchive .pynone none initZero "GRULayer"
     rfl (by decide)⟩

/-- C7 counterexample: the empty string is a non-null stage-1 reference,
yet construction succeeds, because the source assertion
`not stage1_model_file_name and not p` tests Python truthiness, not
nullness.  This refutes the claim that construction fails whenever a
non-null stage-1 reference is supplied. -/
theorem construct_empty_string_counterexample :
    GRU.construct initZero 1 [] [] (.pystr "") .pynone =
      .ok (GRU.new initZero 1 [] []) ∧
    PyObj.pystr "" ≠ PyObj.pynone :=
  ⟨rfl, by decide⟩

/-- C7 (amended): construction fails with the assertion error exactly
when the stage-1 reference or the auxiliary argument is Python-truthy;
with both falsy (null, and also empty/zero values) it succeeds. -/
theorem construct_assert_truthiness (init : PName → Tensor) (nh : ℕ) (xv yv : Vocab)
    (s p : PyObj) :
    ((s.truthy || p.truthy) = true →
      GRU.construct init nh xv yv s p =
        .error "AssertionError: Stage 1 model cannot have stage 1 model") ∧
    ((s.truthy || p.truthy) = false →
      GRU.construct init nh xv yv s p = .ok (GRU.new init nh xv yv)) := by
  constructor <;> intro h <;> simp [GRU.construct, h]

/-- C7 witness: a truthy stage-1 reference fails at a concrete input. -/
theorem construct_assert_truthiness_witness :
    GRU.construct initZero 1 [] [] (.pystr "model.pcl") .pynone =
      .error "AssertionError: Stage 1 model cannot have stage 1 model" :=
  (construct_assert_truthiness initZero 1 [] [] (.pystr "model.pcl") .pynone).1
    (by decide)

/-- C8 counterexample: for `(fan_in, fan_out) = (1, 2)` without
`keepdims` the computed shape is the 1-element tuple `(2,)`, but
`np.eye` applied to it produces the square `2 × 2` identity, not a 1-D
tensor of length `max(1, 2)`.  This refutes the claimed 1-D collapsed
shape of the identity initializer. -/
theorem weights_identity_collapsed_shape_counterexample :
    (weights_identity 1 2 1 false).shape = [2, 2] ∧
    (weights_identity 1 2 1 false).shape ≠ [max 1 2] := by
  constructor
  · rfl
  · decide

/-- C8 (amended): the identity initializer returns the square
`max(i,o) × max(i,o)` identity whenever the shape collapse triggers
(`i = 1` or `o = 1`, `keepdims` off), the `(i, o)` rectangular identity
otherwise, and in all cases its entries divided by a non-zero `value`
are exactly 1 on the leading diagonal and 0 elsewhere. -/
theorem weights_identity_amended (i o : ℕ) (v : ℚ) (keepdims : Bool) :
    (((i = 1 ∨ o = 1) ∧ keepdims = false) →
      (weights_identity i o v keepdims).shape = [max i o, max i o]) ∧
    (¬((i = 1 ∨ o = 1) ∧ keepdims = false) →
      (weights_identity i o v keepdims).shape = [i, o]) ∧
    (v ≠ 0 → ∀ a b : ℕ,
      (weights_identity i o v keepdims).entry a b / v = if a = b then 1 else 0) := by
  refine ⟨?_, ?_, ?_⟩
  · intro h
    simp [weights_identity, getShapePy, npEye, h]
  · intro h
    simp [weights_identity, getShapePy, npEye, h]
  · intro hv a b
    by_cases hc : (i = 1 ∨ o = 1) ∧ keepdims = false <;>
      by_cases hab : a = b <;>
      simp [weights_identity, getShapePy, npEye, hc, hab, div_self hv]

/-- C8 witness: the amended shape and entry contract at the concrete
input `(1, 2, 1, keepdims off)`. -/
theorem weights_identity_amended_witness :
    (weights_identity 1 2 (1 : ℚ) false).shape = [max 1 2, max 1 2] ∧
    (weights_identity 1 2 (1 : ℚ) false).entry 0 0 / 1 =
      if (0 : ℕ) = 0 then 1 else 0 :=
  ⟨(weights_identity_amended 1 2 1 false).1 (by decide),
   (weights_identity_amended 1 2 1 false).2.2 (by decide) 0 0⟩

/-- C9: `save` and `save_zip` accept `best_validation_ppl` but the
persisted record never reads it — two saves differing only in that
argument write identical state, in both formats — and the key set of
the record is exactly the eleven keys of the dict literal. -/
theorem save_record_keys_ignore_best_ppl (m : GRUModel) (a : SaveArgs) (v v' : Option ℚ) :
    GRU.save m ⟨a.gsums, a.learning_rate, a.validation_ppl_history, v, a.epoch,
        a.random_state⟩ =
      GRU.save m ⟨a.gsums, a.learning_rate, a.validation_ppl_history, v', a.epoch,
        a.random_state⟩ ∧
    GRU.save_zip m ⟨a.gsums, a.learning_rate, a.validation_ppl_history, v, a.epoch,
        a.random_state⟩ =
      GRU.save_zip m ⟨a.gsums, a.learning_rate, a.validation_ppl_history, v', a.epoch,
        a.random_state⟩ ∧
    (GRU.save m a).map Prod.fst =
      ["type", "n_hidden", "x_vocabulary", "y_vocabulary", "stage1_model_file_name",
       "params", "gsums", "learning_rate", "validation_ppl_history", "epoch",
       "random_state"] :=
  ⟨rfl, rfl, rfl⟩

